import Mathlib

/-!
Shallow embedding of the jail custody checker's confinement acquisition and
matching subsystem (jail_api.py, models.py, main.py), together with proofs of
the spec's claims about it.

Python string primitives are modelled on ASCII text: str.strip() removes the
characters of Python's default whitespace set from both ends, str.lower() maps
uppercase ASCII to lowercase, str.split() with no arguments splits on runs of
whitespace and drops empty fields.
-/

namespace JailChecker

/-- Python's default whitespace set for str.strip and str.split. -/
def pyIsWs (c : Char) : Bool :=
  c = ' ' || c = '\t' || c = '\n' || c = '\x0d' || c = '\x0b' || c = '\x0c'

/-- Python str.strip(): drop whitespace from both ends. -/
def pyStrip (s : String) : String :=
  String.mk (((s.toList.dropWhile pyIsWs).reverse.dropWhile pyIsWs).reverse)

/-- Python str.lower() restricted to ASCII. -/
def pyLower (s : String) : String :=
  String.mk (s.toList.map Char.toLower)

/-- Helper for pySplit: walk the characters, accumulating the current field in
reverse; whitespace closes the field, empty fields are not produced. -/
def splitWsAux : List Char → List Char → List String
  | [], cur => if cur.isEmpty then [] else [String.mk cur.reverse]
  | c :: rest, cur =>
    if pyIsWs c then
      if cur.isEmpty then splitWsAux rest []
      else String.mk cur.reverse :: splitWsAux rest []
    else splitWsAux rest (c :: cur)

/-- Python str.split() with no arguments: split on whitespace runs, no empty fields. -/
def pySplit (s : String) : List String :=
  splitWsAux s.toList []

/-- The per-component transform used by _normalize_name: p.lower().strip(). -/
def normPart (p : String) : String :=
  pyStrip (pyLower p)

/-- JailAPIClient._normalize_name: parts = [last, first] (+ middle if non-empty),
then join the lowercased-and-stripped non-empty parts with single spaces. -/
def normalizeName (last first middle : String) : String :=
  let parts := [last, first] ++ (if middle ≠ "" then [middle] else [])
  String.intercalate " " ((parts.filter (· ≠ "")).map normPart)

/-- Boolean contiguous-sublist test on character lists (models Python's `in`
test on strings). -/
def listContainsSub (needle : List Char) : List Char → Bool
  | [] => needle.isEmpty
  | c :: rest => needle.isPrefixOf (c :: rest) || listContainsSub needle rest

/-- Python `sub in s` on strings. -/
def containsSub (s sub : String) : Bool :=
  listContainsSub sub.toList s.toList

/-- re.search r-quote BookingID=(digits) applied to a href: the leftmost position
where the literal text BookingID= is followed by at least one digit; returns the
maximal digit run there. -/
def findBookingId : List Char → Option String
  | [] => none
  | c :: rest =>
    if ("BookingID=".toList).isPrefixOf (c :: rest) then
      let ds := (((c :: rest).drop 10).takeWhile Char.isDigit)
      if ds.isEmpty then findBookingId rest else some (String.mk ds)
    else findBookingId rest

/-- One inmate's data dictionary as built by _fetch_single_page. -/
structure InmateData where
  fullName : String
  firstName : String
  middleName : String
  lastName : String
  bookingDate : Option String
  arrestDatetime : Option String
  arrestingAgency : Option String
  bondAmount : Option String
  charges : Option String
  mugshotUrl : Option String
  bookingNumber : Option String
deriving DecidableEq, Repr

/-- A label/value detail row of a booking card: the text of the detail-label and
detail-value spans, none when the span is absent. -/
structure DetailRow where
  label : Option String
  value : Option String
deriving DecidableEq, Repr

/-- A charge-item block: outer option is the charge-details div, inner option is
the text of its first inner div. -/
structure ChargeItem where
  chargeDetails : Option (Option String)
deriving DecidableEq, Repr

/-- The data _fetch_single_page reads out of one booking-card block: the h5
header text, the detail rows, the charge items, the mugshot img src, and the
href of the first link whose href mentions BookingID=. -/
structure CardBlock where
  header : Option String
  detailRows : List DetailRow
  chargeItems : List ChargeItem
  mugshot : Option String
  detailsHref : Option String
deriving DecidableEq, Repr

/-- Accumulator for the labeled detail fields. -/
structure Details where
  bookingDate : Option String
  arrestDatetime : Option String
  arrestingAgency : Option String
  bondAmount : Option String
deriving DecidableEq, Repr

/-- One step of the detail-row loop: strip label and value, match the label
against the four known substrings (later rows overwrite earlier ones). -/
def applyDetailRow (acc : Details) (row : DetailRow) : Details :=
  match row.label, row.value with
  | some lb, some vl =>
    let label := pyStrip lb
    let value := pyStrip vl
    if containsSub label "Booked:" then { acc with bookingDate := some value }
    else if containsSub label "Arrest Date/Time:" then { acc with arrestDatetime := some value }
    else if containsSub label "Arresting Agency:" then { acc with arrestingAgency := some value }
    else if containsSub label "Bond Total:" then { acc with bondAmount := some value }
    else acc
  | _, _ => acc

/-- The charges extraction: collect the stripped text of each charge item whose
charge-details div and first inner div are present, join with a semicolon. -/
def extractCharges (items : List ChargeItem) : Option String :=
  let l := items.foldr
    (fun it acc =>
      match it.chargeDetails with
      | some (some txt) => pyStrip txt :: acc
      | _ => acc) []
  if l.isEmpty then none else some (String.intercalate "; " l)

/-- Per-card extraction from _fetch_single_page: none means the card is skipped
(missing header, or fewer than two name tokens); otherwise the two lookup keys
and the inmate data dictionary. -/
def processCard (card : CardBlock) : Option (List String × InmateData) :=
  match card.header with
  | none => none
  | some h =>
    let fullName := pyStrip h
    let nameParts := pySplit fullName
    if nameParts.length < 2 then none
    else
      let firstName := nameParts.headD ""
      let lastName := nameParts.getLastD ""
      let middleName :=
        if nameParts.length > 2 then String.intercalate " " ((nameParts.drop 1).dropLast) else ""
      let details := card.detailRows.foldl applyDetailRow ⟨none, none, none, none⟩
      let charges := extractCharges card.chargeItems
      let bookingNumber := card.detailsHref.bind (fun href => findBookingId href.toList)
      let keys := [normalizeName lastName firstName middleName,
                   normalizeName lastName firstName ""]
      some (keys,
        { fullName := fullName
          firstName := firstName
          middleName := middleName
          lastName := lastName
          bookingDate := details.bookingDate
          arrestDatetime := details.arrestDatetime
          arrestingAgency := details.arrestingAgency
          bondAmount := details.bondAmount
          charges := charges
          mugshotUrl := card.mugshot
          bookingNumber := bookingNumber })

/-- The roster: a mapping from normalized-name keys to inmate data, modelled as
an association list with Python-dict insertion semantics. -/
abbrev Roster := List (String × InmateData)

/-- Python dict assignment d[k] = v: replace in place if the key exists,
otherwise append. -/
def dictInsert (m : Roster) (k : String) (v : InmateData) : Roster :=
  if m.any (fun p => p.1 = k) then m.map (fun p => if p.1 = k then (k, v) else p)
  else m ++ [(k, v)]

/-- Python `k in d` followed by `d[k]`. -/
def rosterFind (m : Roster) (k : String) : Option InmateData :=
  (m.find? (fun p => p.1 = k)).map (·.2)

/-- _fetch_single_page after the network call: a non-200 status yields an empty
mapping; otherwise each card is processed inside a try/except — a card whose
low-level extraction raises (modelled as Except.error) or whose header is
missing or one-token is skipped, and each accepted card's data is stored under
both of its keys. -/
def processPage (status : Nat) (cards : List (Except String CardBlock)) : Roster :=
  if status ≠ 200 then []
  else
    cards.foldl
      (fun acc c =>
        match c with
        | .error _ => acc
        | .ok card =>
          match processCard card with
          | none => acc
          | some (keys, data) => keys.foldl (fun a k => dictInsert a k data) acc) []

/-- Fixed batch size from _fetch_current_confinements. -/
def batchSize : Nat := 20

/-- Fixed maximum batch count from _fetch_current_confinements. -/
def maxBatches : Nat := 3

/-- A page-fetch oracle: the roster entries _fetch_single_page would return for
a 1-based page index, or an error when the fetch raises. -/
abbrev PageFetch := Nat → Except String Roster

/-- The entries credited to a page by the batch loop: a raised fetch is caught
and counted as an empty page. -/
def pageEntries (fetch : PageFetch) (idx : Nat) : Roster :=
  match fetch idx with
  | .ok l => l
  | .error _ => []

/-- The 1-based page indices of the batch starting at a given page. -/
def batchPages (start : Nat) : List Nat :=
  (List.range batchSize).map (start + ·)

/-- empty_pages == batch_size: every page of the batch yielded zero records. -/
def batchAllEmpty (fetch : PageFetch) (start : Nat) : Bool :=
  (batchPages start).all (fun p => (pageEntries fetch p).isEmpty)

/-- dict.update with one page's entries. -/
def mergePage (acc : Roster) (entries : Roster) : Roster :=
  entries.foldl (fun a kv => dictInsert a kv.1 kv.2) acc

/-- Merge every page of one batch into the accumulated roster. -/
def mergeBatch (fetch : PageFetch) (acc : Roster) (start : Nat) : Roster :=
  (batchPages start).foldl (fun a p => mergePage a (pageEntries fetch p)) acc

/-- The batch loop of _fetch_current_confinements: run up to fuel batches from
the given start page, stopping early after a batch whose every page was empty;
returns the merged roster and the number of batches performed. -/
def runBatches (fetch : PageFetch) : Nat → Nat → Roster → Roster × Nat
  | 0, _, acc => (acc, 0)
  | fuel + 1, start, acc =>
    let acc2 := mergeBatch fetch acc start
    if batchAllEmpty fetch start then (acc2, 1)
    else
      let r := runBatches fetch fuel (start + batchSize) acc2
      (r.1, r.2 + 1)

/-- The full pagination of _fetch_current_confinements: up to maxBatches batches
of batchSize pages starting at page 1. -/
def fetchAllBatches (fetch : PageFetch) : Roster × Nat :=
  runBatches fetch maxBatches 1 []

/-- The mutable client state relevant to acquisition: the _session_initialized
flag and the _current_inmates cache. -/
structure ClientState where
  sessionInitialized : Bool
  cache : Option Roster
deriving DecidableEq, Repr

/-- _fetch_current_confinements as a state transformer. Returns the roster, the
new client state, and the number of network operations performed (one handshake
GET when the session was not yet initialized, plus one POST per fetched page).
A cache hit returns immediately with zero network operations. -/
def fetchCurrentConfinements (fetch : PageFetch) (s : ClientState) :
    Roster × ClientState × Nat :=
  match s.cache with
  | some r => (r, s, 0)
  | none =>
    let handshakeOps := if s.sessionInitialized then 0 else 1
    let r := fetchAllBatches fetch
    (r.1, { sessionInitialized := true, cache := some r.1 },
      handshakeOps + batchSize * r.2)

/-- A defendant from the prosecutor's list (models.Defendant); middle_name's
None default is already normalized to the empty string, as search_name does. -/
structure Defendant where
  lastName : String
  firstName : String
  middleName : String
  matterNumber : Option String
  caseNumber : Option String
deriving DecidableEq, Repr

/-- Defendant.search_name: (first, middle, last). -/
def searchName (d : Defendant) : String × String × String :=
  (d.firstName, d.middleName, d.lastName)

/-- Defendant.full_name. -/
def defFullName (d : Defendant) : String :=
  if d.middleName ≠ "" then
    d.lastName ++ ", " ++ d.firstName ++ " " ++ d.middleName
  else d.lastName ++ ", " ++ d.firstName

/-- models.CustodyResult (the query timestamp is omitted: wall-clock). -/
structure CustodyResult where
  defendantName : String
  matterNumber : Option String
  caseNumber : Option String
  inCustody : Bool
  bookingNumber : Option String
  bookingDate : Option String
  custodyLocation : Option String
  chargesAtBooking : Option String
  bondAmount : Option String
  mugshotUrl : Option String
  errorMessage : Option String
deriving DecidableEq, Repr

/-- The for-key-in-lookup-keys loop of check_custody: first key present wins. -/
def lookupFirst (roster : Roster) : List String → Option InmateData
  | [] => none
  | k :: ks =>
    match rosterFind roster k with
    | some r => some r
    | none => lookupFirst roster ks

/-- The body of check_custody after a successful roster acquisition: probe the
two lookup keys in priority order and build the verdict. -/
def checkCustody (roster : Roster) (d : Defendant) : CustodyResult :=
  let n := searchName d
  let firstName := n.1
  let middleName := n.2.1
  let lastName := n.2.2
  let lookupKeys := [normalizeName lastName firstName middleName,
                     normalizeName lastName firstName ""]
  match lookupFirst roster lookupKeys with
  | some inmate =>
    { defendantName := defFullName d
      matterNumber := d.matterNumber
      caseNumber := d.caseNumber
      inCustody := true
      bookingNumber := inmate.bookingNumber
      bookingDate := inmate.bookingDate
      custodyLocation := some "Dorchester County Detention Center"
      chargesAtBooking := inmate.charges
      bondAmount := inmate.bondAmount
      mugshotUrl := inmate.mugshotUrl
      errorMessage := none }
  | none =>
    { defendantName := defFullName d
      matterNumber := d.matterNumber
      caseNumber := d.caseNumber
      inCustody := false
      bookingNumber := none
      bookingDate := none
      custodyLocation := none
      chargesAtBooking := none
      bondAmount := none
      mugshotUrl := none
      errorMessage := none }

/-- check_custody with its try/except around roster acquisition: a raised
acquisition (Except.error) is caught and turned into an error-bearing negative
verdict instead of propagating. -/
def checkCustodyE (acq : Except String Roster) (d : Defendant) : CustodyResult :=
  match acq with
  | .ok roster => checkCustody roster d
  | .error e =>
    { defendantName := defFullName d
      matterNumber := d.matterNumber
      caseNumber := d.caseNumber
      inCustody := false
      bookingNumber := none
      bookingDate := none
      custodyLocation := none
      chargesAtBooking := none
      bondAmount := none
      mugshotUrl := none
      errorMessage := some ("Error: " ++ e) }

/-- main.check_custody_for_all: one verdict appended per defendant, in order. -/
def checkCustodyForAll (acq : Except String Roster) (ds : List Defendant) :
    List CustodyResult :=
  ds.map (checkCustodyE acq)

/-- The urllib3 Retry configuration built in JailAPIClient.init. -/
structure RetryConfig where
  total : Nat
  statusForcelist : List Nat
  backoffFactor : Nat
deriving DecidableEq, Repr

/-- Retry(total=max_retries, status_forcelist=[429, 502, 503, 504],
backoff_factor=2) — the source comment says: Don't retry 500s. -/
def mkRetryConfig (maxRetries : Nat) : RetryConfig :=
  { total := maxRetries
    statusForcelist := [429, 502, 503, 504]
    backoffFactor := 2 }

/-! Concrete fixtures used by the theorems below. -/

/-- A booking card whose displayed name is Adams Avery Arron. -/
def adamsCard : CardBlock :=
  { header := some "Adams Avery Arron"
    detailRows := []
    chargeItems := []
    mugshot := none
    detailsHref := none }

/-- The roster produced by a successful page containing only adamsCard. -/
def adamsPage : Roster :=
  processPage 200 [Except.ok adamsCard]

/-- A well-formed two-token booking card. -/
def goodCard : CardBlock :=
  { header := some "John Smith"
    detailRows := []
    chargeItems := []
    mugshot := none
    detailsHref := none }

/-- A booking card with no name header. -/
def noNameCard : CardBlock :=
  { header := none
    detailRows := []
    chargeItems := []
    mugshot := none
    detailsHref := none }

/-- A booking card whose displayed name is a single token. -/
def oneTokenCard : CardBlock :=
  { header := some "Cher"
    detailRows := []
    chargeItems := []
    mugshot := none
    detailsHref := none }

/-- A concrete inmate record for witness instances. -/
def sampleInmate : InmateData :=
  { fullName := "John Doe"
    firstName := "John"
    middleName := ""
    lastName := "Doe"
    bookingDate := some "01/02/2025"
    arrestDatetime := none
    arrestingAgency := none
    bondAmount := some "$500"
    charges := some "Speeding"
    mugshotUrl := some "img.jpg"
    bookingNumber := some "123" }

/-- A one-entry roster for witness instances. -/
def sampleRoster : Roster := [("doe john", sampleInmate)]

/-- A concrete defendant for witness instances. -/
def sampleDefendant : Defendant :=
  { lastName := "Doe"
    firstName := "John"
    middleName := ""
    matterNumber := none
    caseNumber := none }

/-! Theorems. -/

/-- Claim C3, counterexample: the record extracted from a block displaying
Adams Avery Arron is reachable under neither of the keys the claim names —
the extractor takes the FIRST token as the first name and the LAST token as
the last name, so neither key starts with adams. -/
theorem adams_card_spec_keys_absent :
    rosterFind adamsPage "adams avery arron" = none ∧
    rosterFind adamsPage "adams avery" = none := by
  decide

/-- Claim C3, amended: the record extracted from a block displaying
Adams Avery Arron is stored under both the key arron adams avery and the key
arron adams, and both keys reach the same record. -/
theorem adams_card_actual_keys :
    (rosterFind adamsPage "arron adams avery").isSome = true ∧
    rosterFind adamsPage "arron adams avery" = rosterFind adamsPage "arron adams" := by
  decide

/-- Claim C8, counterexample: the retry configuration does not cover all 5xx
statuses — 500 is not in the status forcelist. -/
theorem retry_not_all_5xx :
    ¬ ∀ s : Nat, 500 ≤ s → s < 600 → s ∈ (mkRetryConfig 3).statusForcelist := by
  intro h
  exact absurd (h 500 (by decide) (by decide)) (by decide)

/-- Claim C8, amended: the transport retry configuration uses total =
max_retries attempts with backoff factor 2, and its retried statuses are
exactly 429, 502, 503 and 504 — 500 and 501 are excluded; a page whose
response status is still not 200 is treated as an empty record set. -/
theorem retry_transient_statuses (mr : Nat) :
    (mkRetryConfig mr).total = mr ∧
    (mkRetryConfig mr).statusForcelist = [429, 502, 503, 504] ∧
    429 ∈ (mkRetryConfig mr).statusForcelist ∧
    502 ∈ (mkRetryConfig mr).statusForcelist ∧
    503 ∈ (mkRetryConfig mr).statusForcelist ∧
    504 ∈ (mkRetryConfig mr).statusForcelist ∧
    500 ∉ (mkRetryConfig mr).statusForcelist ∧
    501 ∉ (mkRetryConfig mr).statusForcelist ∧
    (mkRetryConfig mr).backoffFactor = 2 ∧
    ∀ status cards, status ≠ 200 → processPage status cards = [] := by
  refine ⟨rfl, rfl, ?_, ?_, ?_, ?_, ?_, ?_, rfl, ?_⟩
  · show 429 ∈ [429, 502, 503, 504]
    decide
  · show 502 ∈ [429, 502, 503, 504]
    decide
  · show 503 ∈ [429, 502, 503, 504]
    decide
  · show 504 ∈ [429, 502, 503, 504]
    decide
  · show 500 ∉ [429, 502, 503, 504]
    decide
  · show 501 ∉ [429, 502, 503, 504]
    decide
  · intro status cards h
    simp [processPage, h]

/-- Claim C8, witness for the amended theorem at concrete inputs. -/
theorem retry_transient_statuses_witness :
    processPage 503 [] = [] :=
  (retry_transient_statuses 3).2.2.2.2.2.2.2.2.2 503 [] (by decide)

/-- Claim C6, counterexample: the NameKey is NOT whitespace-collapsed — two
inputs whose first components differ only in interior whitespace produce
different outputs, because _normalize_name only strips leading and trailing
whitespace of each component. -/
theorem normalize_not_ws_collapsed :
    normalizeName "Smith" "John Q" "" ≠ normalizeName "Smith" "John  Q" "" := by
  decide

/-- Claim C6, amended: normalize is a deterministic pure function; for
non-empty last/first, two inputs whose components agree up to letter case and
LEADING/TRAILING whitespace (and whose middles are empty together) produce the
same output; and the two concrete examples hold. -/
theorem normalize_case_strip_invariant (l l2 f f2 m m2 : String)
    (hl : normPart l = normPart l2) (hf : normPart f = normPart f2)
    (hm : normPart m = normPart m2)
    (hln : l ≠ "") (hfn : f ≠ "") (hln2 : l2 ≠ "") (hfn2 : f2 ≠ "")
    (hmm : m = "" ↔ m2 = "") :
    normalizeName l f m = normalizeName l2 f2 m2 ∧
    normalizeName "Smith" "John" "Q" = "smith john q" ∧
    normalizeName "ADAMS" "AVERY" "ARRON" = "adams avery arron" := by
  refine ⟨?_, by decide, by decide⟩
  by_cases hm0 : m = ""
  · have hm2 : m2 = "" := hmm.mp hm0
    subst hm0
    subst hm2
    simp [normalizeName, List.filter_cons, hln, hfn, hln2, hfn2, hl, hf]
  · have hm2 : m2 ≠ "" := fun h => hm0 (hmm.mpr h)
    simp [normalizeName, List.filter_cons, hln, hfn, hln2, hfn2, hm0, hm2, hl, hf, hm]

/-- Claim C6, witness for the amended theorem at concrete inputs. -/
theorem normalize_case_strip_invariant_witness :
    normalizeName "SMITH " " John" " Q " = normalizeName "smith" "JOHN" "q" ∧
    normalizeName "Smith" "John" "Q" = "smith john q" ∧
    normalizeName "ADAMS" "AVERY" "ARRON" = "adams avery arron" :=
  normalize_case_strip_invariant "SMITH " "smith" " John" "JOHN" " Q " "q"
    (by decide) (by decide) (by decide) (by decide) (by decide) (by decide)
    (by decide) (by decide)

/-- Claim C1: check_custody probes the roster with the full key
normalize(last, first, middle) and then the without-middle key
normalize(last, first, empty), in that priority order; the first key present
yields a positive verdict carrying the matched record's booking number,
booking date, charges, bond amount and mugshot reference, and when neither key
is present the verdict is negative with every booking-detail field None. -/
theorem check_custody_key_priority (roster : Roster) (d : Defendant) :
    (∀ r, rosterFind roster (normalizeName d.lastName d.firstName d.middleName) = some r →
      (checkCustody roster d).inCustody = true ∧
      (checkCustody roster d).bookingNumber = r.bookingNumber ∧
      (checkCustody roster d).bookingDate = r.bookingDate ∧
      (checkCustody roster d).chargesAtBooking = r.charges ∧
      (checkCustody roster d).bondAmount = r.bondAmount ∧
      (checkCustody roster d).mugshotUrl = r.mugshotUrl) ∧
    (rosterFind roster (normalizeName d.lastName d.firstName d.middleName) = none →
      ∀ r, rosterFind roster (normalizeName d.lastName d.firstName "") = some r →
      (checkCustody roster d).inCustody = true ∧
      (checkCustody roster d).bookingNumber = r.bookingNumber ∧
      (checkCustody roster d).bookingDate = r.bookingDate ∧
      (checkCustody roster d).chargesAtBooking = r.charges ∧
      (checkCustody roster d).bondAmount = r.bondAmount ∧
      (checkCustody roster d).mugshotUrl = r.mugshotUrl) ∧
    (rosterFind roster (normalizeName d.lastName d.firstName d.middleName) = none →
      rosterFind roster (normalizeName d.lastName d.firstName "") = none →
      (checkCustody roster d).inCustody = false ∧
      (checkCustody roster d).bookingNumber = none ∧
      (checkCustody roster d).bookingDate = none ∧
      (checkCustody roster d).chargesAtBooking = none ∧
      (checkCustody roster d).bondAmount = none ∧
      (checkCustody roster d).mugshotUrl = none ∧
      (checkCustody roster d).custodyLocation = none ∧
      (checkCustody roster d).errorMessage = none) := by
  refine ⟨?_, ?_, ?_⟩
  · intro r h
    simp [checkCustody, searchName, lookupFirst, h]
  · intro h1 r h2
    simp [checkCustody, searchName, lookupFirst, h1, h2]
  · intro h1 h2
    simp [checkCustody, searchName, lookupFirst, h1, h2]

/-- Claim C1, witness: a roster holding sampleInmate under doe john matches the
defendant John Doe positively with the record's booking details. -/
theorem check_custody_key_priority_witness :
    (checkCustody sampleRoster sampleDefendant).inCustody = true ∧
    (checkCustody sampleRoster sampleDefendant).bookingNumber = sampleInmate.bookingNumber ∧
    (checkCustody sampleRoster sampleDefendant).bookingDate = sampleInmate.bookingDate ∧
    (checkCustody sampleRoster sampleDefendant).chargesAtBooking = sampleInmate.charges ∧
    (checkCustody sampleRoster sampleDefendant).bondAmount = sampleInmate.bondAmount ∧
    (checkCustody sampleRoster sampleDefendant).mugshotUrl = sampleInmate.mugshotUrl :=
  (check_custody_key_priority sampleRoster sampleDefendant).1 sampleInmate (by decide)

/-- Claim C2: check_custody never raises — a raised roster acquisition yields a
negative verdict with a non-empty error description, and a batch of N subjects
always yields exactly N verdicts. -/
theorem check_custody_never_raises (e : String) (d : Defendant)
    (acq : Except String Roster) (ds : List Defendant) :
    (checkCustodyE (Except.error e) d).inCustody = false ∧
    (∃ msg, (checkCustodyE (Except.error e) d).errorMessage = some msg ∧ msg ≠ "") ∧
    (checkCustodyForAll acq ds).length = ds.length := by
  refine ⟨rfl, ⟨"Error: " ++ e, rfl, ?_⟩, by simp [checkCustodyForAll]⟩
  intro hcontra
  have h1 : ("Error: " ++ e).length = 0 := by rw [hcontra]; rfl
  rw [String.length_append] at h1
  have h2 : ("Error: " : String).length = 7 := rfl
  omega

/-- Claim C5: acquisition is memoized — after any call, a further call returns
the same roster and the same client state with zero network operations, and a
call on a fresh client performs at least one network operation. -/
theorem roster_fetch_memoized (fetch : PageFetch) (s : ClientState) :
    (fetchCurrentConfinements fetch (fetchCurrentConfinements fetch s).2.1).1 =
      (fetchCurrentConfinements fetch s).1 ∧
    (fetchCurrentConfinements fetch (fetchCurrentConfinements fetch s).2.1).2.1 =
      (fetchCurrentConfinements fetch s).2.1 ∧
    (fetchCurrentConfinements fetch (fetchCurrentConfinements fetch s).2.1).2.2 = 0 ∧
    1 ≤ (fetchCurrentConfinements fetch ⟨false, none⟩).2.2 := by
  obtain ⟨si, sc⟩ := s
  cases sc <;> refine ⟨?_, ?_, ?_, ?_⟩ <;> simp [fetchCurrentConfinements, batchSize]

/-- Claim C7: failures are contained below the page level — a non-200 status
yields an empty mapping; a card whose extraction raises, whose header is
missing, or whose name is a single token is skipped without aborting the rest
of the page; and a page with one well-formed and one nameless card yields
exactly one roster record. -/
theorem page_failure_containment :
    (∀ status cards, status ≠ 200 → processPage status cards = []) ∧
    (∀ e rest, processPage 200 (Except.error e :: rest) = processPage 200 rest) ∧
    (∀ card rest, card.header = none →
      processPage 200 (Except.ok card :: rest) = processPage 200 rest) ∧
    (∀ card rest name, card.header = some name →
      (pySplit (pyStrip name)).length < 2 →
      processPage 200 (Except.ok card :: rest) = processPage 200 rest) ∧
    (processPage 200 [Except.ok goodCard, Except.ok noNameCard]).length = 1 := by
  refine ⟨?_, ?_, ?_, ?_, by decide⟩
  · intro status cards h
    simp [processPage, h]
  · intro e rest
    simp [processPage]
  · intro card rest h
    have hp : processCard card = none := by simp [processCard, h]
    simp [processPage, hp]
  · intro card rest name h h2
    have hp : processCard card = none := by simp [processCard, h, h2]
    simp [processPage, hp]

/-- Claim C7, witness: concrete skipped pages and cards. -/
theorem page_failure_containment_witness :
    processPage 404 [] = [] ∧
    processPage 200 [Except.error "boom"] = processPage 200 [] ∧
    processPage 200 [Except.ok noNameCard] = processPage 200 [] ∧
    processPage 200 [Except.ok oneTokenCard] = processPage 200 [] :=
  ⟨page_failure_containment.1 404 [] (by decide),
   page_failure_containment.2.1 "boom" [],
   page_failure_containment.2.2.1 noNameCard [] rfl,
   page_failure_containment.2.2.2.1 oneTokenCard [] "Cher" rfl (by decide)⟩

/-- Claim C10: for a display name of at least two whitespace tokens, the
extractor assigns the first token to the first name, the last token to the
last name and the joined interior tokens to the middle name, and the record's
two keys are normalize(last, first, interior) and normalize(last, first,
empty). -/
theorem name_token_assignment (card : CardBlock) (name : String)
    (hh : card.header = some name) (parts : List String)
    (hp : pySplit (pyStrip name) = parts) (h2 : 2 ≤ parts.length) :
    ∃ data : InmateData,
      processCard card =
        some ([normalizeName (parts.getLastD "") (parts.headD "")
                 (String.intercalate " " ((parts.drop 1).dropLast)),
               normalizeName (parts.getLastD "") (parts.headD "") ""], data) ∧
      data.firstName = parts.headD "" ∧
      data.lastName = parts.getLastD "" ∧
      data.middleName = String.intercalate " " ((parts.drop 1).dropLast) := by
  have hmid : (if parts.length > 2 then
        String.intercalate " " ((parts.drop 1).dropLast) else "")
      = String.intercalate " " ((parts.drop 1).dropLast) := by
    by_cases hgt : parts.length > 2
    · rw [if_pos hgt]
    · have hlen : parts.length = 2 := by omega
      have hnil : (parts.drop 1).dropLast = [] := by
        have hl0 : ((parts.drop 1).dropLast).length = 0 := by
          simp [List.length_dropLast, List.length_drop, hlen]
        exact List.length_eq_zero.mp hl0
      rw [if_neg hgt, hnil]
      rfl
  obtain ⟨hd, rows, items, mug, href⟩ := card
  have hh2 : hd = some name := hh
  subst hh2
  simp only [processCard]
  rw [hp, if_neg (by omega : ¬ parts.length < 2), hmid]
  exact ⟨_, rfl, rfl, rfl, rfl⟩

/-- Claim C10, witness: the Adams Avery Arron card gets first name Adams, last
name Arron, middle name Avery, and keys arron adams avery and arron adams. -/
theorem name_token_assignment_witness :
    ∃ data : InmateData,
      processCard adamsCard = some (["arron adams avery", "arron adams"], data) ∧
      data.firstName = "Adams" ∧
      data.lastName = "Arron" ∧
      data.middleName = "Avery" := by
  obtain ⟨data, h1, h2, h3, h4⟩ :=
    name_token_assignment adamsCard "Adams Avery Arron" rfl
      ["Adams", "Avery", "Arron"] (by decide) (by decide)
  refine ⟨data, ?_, h2.trans (by decide), h3.trans (by decide), h4.trans (by decide)⟩
  rw [show ([normalizeName (["Adams", "Avery", "Arron"].getLastD "")
        (["Adams", "Avery", "Arron"].headD "")
        (String.intercalate " " (((["Adams", "Avery", "Arron"]).drop 1).dropLast)),
      normalizeName (["Adams", "Avery", "Arron"].getLastD "")
        (["Adams", "Avery", "Arron"].headD "") ""])
      = ["arron adams avery", "arron adams"] from by decide] at h1
  exact h1

/-- Every page of an all-empty batch merges to the unchanged accumulator. -/
theorem foldl_mergePage_empty (fetch : PageFetch) :
    ∀ (l : List Nat) (acc : Roster),
      l.all (fun p => (pageEntries fetch p).isEmpty) = true →
      l.foldl (fun a p => mergePage a (pageEntries fetch p)) acc = acc := by
  intro l
  induction l with
  | nil => intro acc _; rfl
  | cons p t ih =>
    intro acc h
    rw [List.all_cons, Bool.and_eq_true] at h
    have he : pageEntries fetch p = [] := by
      cases hc : pageEntries fetch p with
      | nil => rfl
      | cons a b => rw [hc] at h; simp at h
    rw [List.foldl_cons, he]
    exact ih acc h.2

/-- Merging an all-empty batch leaves the roster unchanged. -/
theorem mergeBatch_of_allEmpty (fetch : PageFetch) (acc : Roster) (start : Nat)
    (h : batchAllEmpty fetch start = true) :
    mergeBatch fetch acc start = acc :=
  foldl_mergePage_empty fetch (batchPages start) acc h

/-- Behaviour of the batch loop: the batch count is bounded by the fuel, is
positive when fuel is, every batch before the last was non-empty, and an early
stop happens exactly after an all-empty batch. -/
theorem runBatches_spec (fetch : PageFetch) :
    ∀ (fuel start : Nat) (acc : Roster),
      (runBatches fetch fuel start acc).2 ≤ fuel ∧
      (0 < fuel → 1 ≤ (runBatches fetch fuel start acc).2) ∧
      (∀ k, k + 1 < (runBatches fetch fuel start acc).2 →
        batchAllEmpty fetch (start + batchSize * k) = false) ∧
      ((runBatches fetch fuel start acc).2 < fuel →
        batchAllEmpty fetch
          (start + batchSize * ((runBatches fetch fuel start acc).2 - 1)) = true) := by
  intro fuel
  induction fuel with
  | zero =>
    intro start acc
    simp [runBatches]
  | succ n ih =>
    intro start acc
    by_cases hB : batchAllEmpty fetch start = true
    · have hr : runBatches fetch (n + 1) start acc = (mergeBatch fetch acc start, 1) := by
        simp [runBatches, hB]
      rw [hr]
      refine ⟨by omega, fun _ => le_refl 1, ?_, ?_⟩
      · intro k hk
        exact absurd hk (by omega)
      · intro _
        simpa using hB
    · have hBf : batchAllEmpty fetch start = false := by
        cases hc : batchAllEmpty fetch start with
        | false => rfl
        | true => exact absurd hc hB
      have hr : runBatches fetch (n + 1) start acc =
          ((runBatches fetch n (start + batchSize) (mergeBatch fetch acc start)).1,
           (runBatches fetch n (start + batchSize) (mergeBatch fetch acc start)).2 + 1) := by
        simp [runBatches, hB]
      obtain ⟨ih1, ih2, ih3, ih4⟩ := ih (start + batchSize) (mergeBatch fetch acc start)
      rw [hr]
      set m := (runBatches fetch n (start + batchSize) (mergeBatch fetch acc start)).2 with hm
      refine ⟨by omega, fun _ => by omega, ?_, ?_⟩
      · intro k hk
        cases k with
        | zero => simpa using hBf
        | succ j =>
          have h3 := ih3 j (by omega)
          have harg : start + batchSize * (j + 1) = start + batchSize + batchSize * j := by
            ring
          rw [harg]
          exact h3
      · intro hlt
        have hm1 : 1 ≤ m := ih2 (by omega)
        have h4 := ih4 (by omega)
        have harg : start + batchSize * (m + 1 - 1)
            = start + batchSize + batchSize * (m - 1) := by
          rw [show batchSize = 20 from rfl]
          omega
        rw [harg]
        exact h4

/-- Claim C4: acquisition runs at least one and at most maxBatches batches,
every batch before the last yielded some records, an early stop happens
exactly after an all-empty batch, and an all-empty first batch gives exactly
one batch and the empty roster. -/
theorem batch_pagination_spec (fetch : PageFetch) :
    1 ≤ (fetchAllBatches fetch).2 ∧
    (fetchAllBatches fetch).2 ≤ maxBatches ∧
    (∀ k, k + 1 < (fetchAllBatches fetch).2 →
      batchAllEmpty fetch (1 + batchSize * k) = false) ∧
    ((fetchAllBatches fetch).2 < maxBatches →
      batchAllEmpty fetch (1 + batchSize * ((fetchAllBatches fetch).2 - 1)) = true) ∧
    (batchAllEmpty fetch 1 = true → fetchAllBatches fetch = ([], 1)) := by
  obtain ⟨h1, h2, h3, h4⟩ := runBatches_spec fetch maxBatches 1 []
  refine ⟨h2 (by decide), h1, h3, h4, ?_⟩
  intro hB
  calc fetchAllBatches fetch = runBatches fetch (2 + 1) 1 [] := rfl
    _ = (mergeBatch fetch [] 1, 1) := by simp [runBatches, hB]
    _ = ([], 1) := by rw [mergeBatch_of_allEmpty fetch [] 1 hB]

/-- Claim C4, witness: with every page empty, acquisition performs exactly one
batch and returns the empty roster. -/
theorem batch_pagination_spec_witness :
    fetchAllBatches (fun _ => Except.ok []) = ([], 1) :=
  (batch_pagination_spec (fun _ => Except.ok [])).2.2.2.2 (by decide)

end JailChecker
